import Mathlib

/-!
Verification development for the `ModelRegistry` lifecycle tracker and the
generation endpoints of `src/python/tts_server.py` (repository
Da1sypetals/ttsui-mac).

The Python code is shallowly embedded as follows.

* `ModelState` and `ModelInfo` mirror the `ModelState` enum and the
  `ModelInfo` dataclass (field defaults included).
* The registry dict `self._models` is modelled as a function
  `String → Option ModelInfo` (value view).  A separate heap model
  (`HeapRegistry`, further below) captures Python object identity, which is
  needed to reason about aliasing of records returned by queries.
* The external calls are modelled by explicit inputs:
  - `LoadOutcome` is the result of the external `load_model(model_id)` call
    from `mlx_audio`: either a loaded instance (an opaque `Nat` handle) or a
    raised exception `PyExc` (kind and message; the Python handler catches
    only `RuntimeError`).
  - `mem : Nat → Int` gives the resident-memory samples in program order:
    `mem 0` is the first `get_memory_mb()` reading of the operation, `mem 1`
    the second.  Python `float` readings are modelled as exact integers; the
    claims only concern which sample lands in which field and the computed
    difference.
  - `clock : Nat → Int` gives the `time.time()` readings in program order,
    so the recorded load time is `clock 1 - clock 0`.
* Operations are serialized (the spec's concurrency model: the registry lock
  makes at most one mutator act on a transition at a time), but each
  operation releases the lock between its critical sections; `OpResult.obs`
  lists the registry as observable at each lock release, in program order,
  ending with the final registry.  Concurrent readers can observe any of
  these snapshots.
-/

inductive ModelState
  | unloaded
  | loading
  | loaded
  | unloading
  | error
deriving DecidableEq, Repr

/-- The `ModelInfo` dataclass (tts_server.py lines 80-89), with the same
field defaults.  `model_instance : Any = None` is an opaque handle, modelled
as `Option Nat`. -/
structure ModelInfo where
  model_id : String
  state : ModelState := ModelState.unloaded
  memory_before_mb : Option Int := none
  memory_after_mb : Option Int := none
  memory_delta_mb : Option Int := none
  load_time_seconds : Option Int := none
  error_message : Option String := none
  model_instance : Option Nat := none
deriving DecidableEq, Repr

/-- `ModelRegistry.CLONE_MODELS` (lines 96-99). -/
def CLONE_MODELS : List String :=
  ["mlx-community/Qwen3-TTS-12Hz-0.6B-Base-bf16",
   "mlx-community/Qwen3-TTS-12Hz-1.7B-Base-bf16"]

/-- `ModelRegistry.CONTROL_MODELS` (lines 101-104). -/
def CONTROL_MODELS : List String :=
  ["mlx-community/Qwen3-TTS-12Hz-0.6B-CustomVoice-bf16",
   "mlx-community/Qwen3-TTS-12Hz-1.7B-CustomVoice-bf16"]

/-- `ModelRegistry.DESIGN_MODEL` (line 106). -/
def DESIGN_MODEL : String := "mlx-community/Qwen3-TTS-12Hz-1.7B-VoiceDesign-bf16"

/-- The catalog iterated by `ModelRegistry.__init__` (line 113). -/
def knownModels : List String := CLONE_MODELS ++ CONTROL_MODELS ++ [DESIGN_MODEL]

/-- Value view of the dict `self._models`. -/
abbrev Registry := String → Option ModelInfo

/-- Dict assignment `self._models[model_id] = info` (value view). -/
def setModel (reg : Registry) (model_id : String) (info : ModelInfo) : Registry :=
  fun i => if i = model_id then some info else reg i

/-- `ModelRegistry.__init__` (lines 108-114): every catalog id is bound to a
fresh record, whose `state` default is `unloaded`. -/
def initRegistry : Registry :=
  fun i => if i ∈ knownModels then some { model_id := i } else none

/-- `ModelRegistry.get_model` (lines 116-118), value view: the record
currently bound to the id (the heap model below records that Python in fact
returns a live reference to it). -/
def get_model (reg : Registry) (model_id : String) : Option ModelInfo :=
  reg model_id

/-- Exception classes distinguished by the embedded flows: the
`except RuntimeError` handler in `load_model`, the `ValueError` raised by
`unload_model`, and the `KeyError` a dict subscript would raise (the latter
never fires in these flows). -/
inductive ExcKind
  | runtimeError
  | valueError
  | keyError
deriving DecidableEq, Repr

structure PyExc where
  kind : ExcKind
  msg : String
deriving DecidableEq, Repr

/-- Result of the external `load_model(model_id)` call (line 153): a loaded
instance, or a raised exception. -/
inductive LoadOutcome
  | ok (inst : Nat)
  | raises (e : PyExc)
deriving DecidableEq, Repr

/-- Result of one registry operation.  `final` is the registry when the
operation finishes; `obs` the snapshots observable at each lock release
(ending with `final`); `ret` the value returned to the caller or the
exception propagated to it; `called` whether the external (load) call was
invoked. -/
structure OpResult where
  final : Registry
  obs : List Registry
  ret : Except PyExc ModelInfo
  called : Bool

/-- `ModelRegistry.load_model` (lines 124-182).

First critical section: auto-create a record for an unknown id (lines
127-128), return unchanged if already `loaded` or `loading` (lines 133-139),
otherwise mark `loading` and clear `error_message` (lines 141-143).  The
lock is then released; memory is sampled (`mem 0`), the external load call
runs, and on success a second critical section writes the `loaded` record
with both memory samples, their difference and the elapsed time (lines
158-165); a `RuntimeError` is recorded as `error` with its message and
re-raised (lines 173-182); any other exception propagates with no further
registry write. -/
def load_model (reg : Registry) (model_id : String) (outcome : LoadOutcome)
    (mem : Nat → Int) (clock : Nat → Int) : OpResult :=
  let reg0 := if (reg model_id).isSome then reg
              else setModel reg model_id { model_id := model_id }
  match reg0 model_id with
  | none =>
      { final := reg0, obs := [reg0],
        ret := Except.error ⟨ExcKind.keyError, "KeyError: " ++ model_id⟩, called := false }
  | some info =>
    if info.state = ModelState.loaded then
      { final := reg0, obs := [reg0], ret := Except.ok info, called := false }
    else if info.state = ModelState.loading then
      { final := reg0, obs := [reg0], ret := Except.ok info, called := false }
    else
      let reg1 := setModel reg0 model_id
        { info with state := ModelState.loading, error_message := none }
      -- lock released here: `reg1` is observable; `mem 0` is sampled,
      -- then the external load call runs
      let memory_before := mem 0
      match outcome with
      | LoadOutcome.ok inst =>
        let load_time := clock 1 - clock 0
        let memory_after := mem 1
        let memory_delta := memory_after - memory_before
        match reg1 model_id with
        | none =>
            { final := reg1, obs := [reg1],
              ret := Except.error ⟨ExcKind.keyError, "KeyError: " ++ model_id⟩, called := true }
        | some info1 =>
          let info2 :=
            { info1 with
                state := ModelState.loaded
                model_instance := some inst
                memory_before_mb := some memory_before
                memory_after_mb := some memory_after
                memory_delta_mb := some memory_delta
                load_time_seconds := some load_time }
          let reg2 := setModel reg1 model_id info2
          { final := reg2, obs := [reg1, reg2], ret := Except.ok info2, called := true }
      | LoadOutcome.raises e =>
        if e.kind = ExcKind.runtimeError then
          match reg1 model_id with
          | none =>
              { final := reg1, obs := [reg1],
                ret := Except.error ⟨ExcKind.keyError, "KeyError: " ++ model_id⟩, called := true }
          | some info1 =>
            let info2 := { info1 with state := ModelState.error, error_message := some e.msg }
            let reg2 := setModel reg1 model_id info2
            { final := reg2, obs := [reg1, reg2], ret := Except.error e, called := true }
        else
          -- only RuntimeError is caught (line 173): any other exception
          -- propagates and the record stays as written at `reg1`
          { final := reg1, obs := [reg1], ret := Except.error e, called := true }

/-- `ModelRegistry.unload_model` (lines 184-228).

First critical section: unknown ids are rejected with
`ValueError("Unknown model: ...")` (lines 187-188); a record that is not
`loaded` is returned unchanged (lines 192-194); otherwise the state becomes
`unloading` (line 196).  The lock is released (`reg1` observable), memory is
sampled (`mem 0`), then a second critical section clears the instance
handle (lines 203-205, `reg2` observable).  After garbage collection and
cache clearing, memory is sampled again (`mem 1`) and a third critical
section writes the final `unloaded` record with the memory fields (lines
218-223). -/
def unload_model (reg : Registry) (model_id : String) (mem : Nat → Int) : OpResult :=
  match reg model_id with
  | none =>
      { final := reg, obs := [reg],
        ret := Except.error ⟨ExcKind.valueError, "Unknown model: " ++ model_id⟩,
        called := false }
  | some info =>
    if info.state ≠ ModelState.loaded then
      { final := reg, obs := [reg], ret := Except.ok info, called := false }
    else
      let reg1 := setModel reg model_id { info with state := ModelState.unloading }
      -- lock released here: `reg1` is observable; `mem 0` is sampled
      let memory_before := mem 0
      match reg1 model_id with
      | none =>
          { final := reg1, obs := [reg1],
            ret := Except.error ⟨ExcKind.keyError, "KeyError: " ++ model_id⟩, called := true }
      | some info1 =>
        let reg2 := setModel reg1 model_id { info1 with model_instance := none }
        -- lock released here: `reg2` is observable; gc + cache clear run,
        -- then `mem 1` is sampled
        let memory_after := mem 1
        let memory_delta := memory_after - memory_before
        match reg2 model_id with
        | none =>
            { final := reg2, obs := [reg1, reg2],
              ret := Except.error ⟨ExcKind.keyError, "KeyError: " ++ model_id⟩, called := true }
        | some info2 =>
          let info3 :=
            { info2 with
                state := ModelState.unloaded
                memory_before_mb := some memory_before
                memory_after_mb := some memory_after
                memory_delta_mb := some memory_delta }
          let reg3 := setModel reg2 model_id info3
          { final := reg3, obs := [reg1, reg2, reg3], ret := Except.ok info3, called := true }

/-- Response model of the generation endpoints (lines 296-299). -/
structure GenerateResponse where
  output_path : String
  success : Bool
  error : Option String := none
deriving DecidableEq, Repr

/-- Failures a generation endpoint surfaces: the `HTTPException(400, ...)`
guard, or the `RuntimeError("No audio generated")` raised on empty results. -/
inductive GenFailure
  | http (status : Nat) (detail : String)
  | runtimeError (msg : String)
deriving DecidableEq, Repr

/-- `generate_clone` endpoint (lines 419-449).  `results` stands for the
list produced by the external `model.generate(**kwargs)` call (opaque
elements); the returned `Bool` records whether that call was reached.  The
guard is `if not info or info.state != ModelState.LOADED` (line 423). -/
def generate_clone (reg : Registry) (model_id : String) (output_path : String)
    (results : List Nat) : Except GenFailure GenerateResponse × Bool :=
  match get_model reg model_id with
  | none =>
      (Except.error (GenFailure.http 400 ("Model " ++ model_id ++ " not loaded")), false)
  | some info =>
    if info.state ≠ ModelState.loaded then
      (Except.error (GenFailure.http 400 ("Model " ++ model_id ++ " not loaded")), false)
    else if results = [] then
      (Except.error (GenFailure.runtimeError "No audio generated"), true)
    else
      (Except.ok { output_path := output_path, success := true }, true)

/-- `generate_control` endpoint (lines 452-483); same guard shape, external
call `model.generate_custom_voice(**kwargs)`. -/
def generate_control (reg : Registry) (model_id : String) (output_path : String)
    (results : List Nat) : Except GenFailure GenerateResponse × Bool :=
  match get_model reg model_id with
  | none =>
      (Except.error (GenFailure.http 400 ("Model " ++ model_id ++ " not loaded")), false)
  | some info =>
    if info.state ≠ ModelState.loaded then
      (Except.error (GenFailure.http 400 ("Model " ++ model_id ++ " not loaded")), false)
    else if results = [] then
      (Except.error (GenFailure.runtimeError "No audio generated"), true)
    else
      (Except.ok { output_path := output_path, success := true }, true)

/-- `generate_design` endpoint (lines 486-515): reads the fixed
`registry.DESIGN_MODEL` record (line 489). -/
def generate_design (reg : Registry) (output_path : String)
    (results : List Nat) : Except GenFailure GenerateResponse × Bool :=
  match get_model reg DESIGN_MODEL with
  | none =>
      (Except.error (GenFailure.http 400 "VoiceDesign model not loaded"), false)
  | some info =>
    if info.state ≠ ModelState.loaded then
      (Except.error (GenFailure.http 400 "VoiceDesign model not loaded"), false)
    else if results = [] then
      (Except.error (GenFailure.runtimeError "No audio generated"), true)
    else
      (Except.ok { output_path := output_path, success := true }, true)

/-! ### Sequential execution traces

Mutating operations are serialized (one lock); each releases the lock
between critical sections, producing the intermediate snapshots in
`OpResult.obs`.  `runTrace` strings operations together and collects every
observable snapshot. -/

/-- One mutating registry operation together with its external inputs. -/
inductive RegOp
  | load (model_id : String) (outcome : LoadOutcome) (mem : Nat → Int) (clock : Nat → Int)
  | unload (model_id : String) (mem : Nat → Int)

def runOp (reg : Registry) : RegOp → OpResult
  | RegOp.load model_id outcome mem clock => load_model reg model_id outcome mem clock
  | RegOp.unload model_id mem => unload_model reg model_id mem

/-- All registry snapshots observable (lock not held) while the operations
run in sequence, in program order. -/
def runTrace (reg : Registry) : List RegOp → List Registry
  | [] => []
  | op :: ops => (runOp reg op).obs ++ runTrace (runOp reg op).final ops

/-- The registry after the operations have all completed. -/
def finalRegOf (reg : Registry) : List RegOp → Registry
  | [] => reg
  | op :: ops => finalRegOf (runOp reg op).final ops

/-- `chainOK R a [b, c, ...]` says consecutive snapshots of `a :: [b, c, ...]`
are related by `R`. -/
def chainOK (R : Registry → Registry → Prop) : Registry → List Registry → Prop
  | _, [] => True
  | r, r' :: rest => R r r' ∧ chainOK R r' rest

/-- The state a concurrent reader attributes to `model_id`: the record's
state, or `unloaded` for an id with no record yet (records are created with
the dataclass default `unloaded`). -/
def stateAt (reg : Registry) (model_id : String) : ModelState :=
  match reg model_id with
  | some info => info.state
  | none => ModelState.unloaded

/-- The transition relation of the spec's state machine: stay put, or take
one of the six listed arrows (`Unloaded → Loading`, `Loading → Loaded`,
`Loading → Error`, `Loaded → Unloading`, `Unloading → Unloaded`, and
re-entry `Error → Loading`; re-entry from `Unloaded` is the first arrow). -/
def allowedStep (s t : ModelState) : Prop :=
  s = t ∨
  (s = ModelState.unloaded ∧ t = ModelState.loading) ∨
  (s = ModelState.loading ∧ t = ModelState.loaded) ∨
  (s = ModelState.loading ∧ t = ModelState.error) ∨
  (s = ModelState.loaded ∧ t = ModelState.unloading) ∨
  (s = ModelState.unloading ∧ t = ModelState.unloaded) ∨
  (s = ModelState.error ∧ t = ModelState.loading)

/-- Relation between consecutive observable snapshots: no record is ever
removed, and every per-id state change is an `allowedStep`. -/
def obsStep (r r' : Registry) : Prop :=
  ∀ model_id,
    ((r model_id).isSome = true → (r' model_id).isSome = true) ∧
    allowedStep (stateAt r model_id) (stateAt r' model_id)

/-- The instance/state relation that holds at every observable point:
a `loaded` record carries its instance, and an instance is only carried in
states `loaded` or `unloading` (the unload flow clears it in a second
critical section, after the state already reads `unloading`). -/
def WeakInv (reg : Registry) : Prop :=
  ∀ model_id info, reg model_id = some info →
    (info.state = ModelState.loaded → info.model_instance.isSome = true) ∧
    (info.model_instance.isSome = true →
      info.state = ModelState.loaded ∨ info.state = ModelState.unloading)

/-- The relation that holds between operations (no unload in flight): the
spec's iff, plus the absence of the transient `unloading` state. -/
def Quiescent (reg : Registry) : Prop :=
  ∀ model_id info, reg model_id = some info →
    (info.state = ModelState.loaded ↔ info.model_instance.isSome = true) ∧
    info.state ≠ ModelState.unloading

/-! ### Heap model

Python returns the `ModelInfo` objects themselves: `get_model` hands back
the object stored in the dict (line 118), `get_all_models` a fresh list of
the same objects (line 122), and `load_model` / `unload_model` mutate those
objects in place.  To reason about this aliasing, the heap model indexes a
store of records by references: the dict maps ids to references, queries
return references, and mutation updates the store cell the reference names. -/

structure HeapRegistry where
  store : List ModelInfo
  dict : List (String × Nat)
deriving DecidableEq, Repr

/-- Dict assignment `self._models[model_id] = info` in the heap model: the
right-hand side is a freshly allocated object (appended to the store) and
the key is bound to the new reference. -/
def hassign (h : HeapRegistry) (model_id : String) (info : ModelInfo) : HeapRegistry :=
  let r := h.store.length
  { store := h.store ++ [info]
    dict :=
      if (h.dict.find? (fun p => p.1 == model_id)).isSome then
        h.dict.map (fun p => if p.1 == model_id then (p.1, r) else p)
      else
        h.dict ++ [(model_id, r)] }

/-- `ModelRegistry.get_model` in the heap model: the reference bound to the
id — the live object, not a copy. -/
def hget (h : HeapRegistry) (model_id : String) : Option Nat :=
  (h.dict.find? (fun p => p.1 == model_id)).map Prod.snd

/-- `ModelRegistry.get_all_models` in the heap model: a fresh list whose
elements are the same references the dict holds. -/
def hgetAll (h : HeapRegistry) : List Nat :=
  h.dict.map Prod.snd

/-- `ModelRegistry.__init__` in the heap model. -/
def hinit : HeapRegistry :=
  knownModels.foldl (fun h model_id => hassign h model_id { model_id := model_id })
    { store := [], dict := [] }

/-- `ModelRegistry.load_model` in the heap model (same control flow as
`load_model` above; in-place mutation of the store cell the dict points to).
Returns the new heap and the returned reference or propagated exception. -/
def hload (h : HeapRegistry) (model_id : String) (outcome : LoadOutcome)
    (mem : Nat → Int) (clock : Nat → Int) : HeapRegistry × Except PyExc Nat :=
  let h0 := if (hget h model_id).isSome then h
            else hassign h model_id { model_id := model_id }
  match hget h0 model_id with
  | none => (h0, Except.error ⟨ExcKind.keyError, "KeyError: " ++ model_id⟩)
  | some r =>
    match h0.store.get? r with
    | none => (h0, Except.error ⟨ExcKind.keyError, "KeyError: " ++ model_id⟩)
    | some info =>
      if info.state = ModelState.loaded then (h0, Except.ok r)
      else if info.state = ModelState.loading then (h0, Except.ok r)
      else
        let h1 := { h0 with
          store := h0.store.set r
            { info with state := ModelState.loading, error_message := none } }
        let memory_before := mem 0
        match outcome with
        | LoadOutcome.ok inst =>
          let load_time := clock 1 - clock 0
          let memory_after := mem 1
          let memory_delta := memory_after - memory_before
          match hget h1 model_id with
          | none => (h1, Except.error ⟨ExcKind.keyError, "KeyError: " ++ model_id⟩)
          | some r1 =>
            match h1.store.get? r1 with
            | none => (h1, Except.error ⟨ExcKind.keyError, "KeyError: " ++ model_id⟩)
            | some info1 =>
              ({ h1 with
                  store := h1.store.set r1
                    { info1 with
                        state := ModelState.loaded
                        model_instance := some inst
                        memory_before_mb := some memory_before
                        memory_after_mb := some memory_after
                        memory_delta_mb := some memory_delta
                        load_time_seconds := some load_time } },
               Except.ok r1)
        | LoadOutcome.raises e =>
          if e.kind = ExcKind.runtimeError then
            match hget h1 model_id with
            | none => (h1, Except.error ⟨ExcKind.keyError, "KeyError: " ++ model_id⟩)
            | some r1 =>
              match h1.store.get? r1 with
              | none => (h1, Except.error ⟨ExcKind.keyError, "KeyError: " ++ model_id⟩)
              | some info1 =>
                ({ h1 with
                    store := h1.store.set r1
                      { info1 with
                          state := ModelState.error, error_message := some e.msg } },
                 Except.error e)
          else
            (h1, Except.error e)

-- sanity checks of the embedding on concrete runs (mirroring the spec's
-- scenario in section 8)
example :
    ((load_model initRegistry DESIGN_MODEL (LoadOutcome.ok 7)
        (fun _ => 0) (fun _ => 0)).final DESIGN_MODEL).map ModelInfo.state
      = some ModelState.loaded := by decide

example :
    ((unload_model (load_model initRegistry DESIGN_MODEL (LoadOutcome.ok 7)
        (fun _ => 0) (fun _ => 0)).final DESIGN_MODEL
          (fun _ => 0)).final DESIGN_MODEL).map ModelInfo.state
      = some ModelState.unloaded := by decide

example :
    (unload_model initRegistry "C" (fun _ => 0)).ret
      = Except.error ⟨ExcKind.valueError, "Unknown model: C"⟩ := by rfl

/-! ### Branch evaluation lemmas

One lemma per control-flow branch of `load_model` / `unload_model`, each
giving the full `OpResult` of that branch. -/

theorem load_model_when_loaded (reg : Registry) (model_id : String) (info : ModelInfo)
    (outcome : LoadOutcome) (mem clock : Nat → Int)
    (h : reg model_id = some info) (hs : info.state = ModelState.loaded) :
    load_model reg model_id outcome mem clock =
      { final := reg, obs := [reg], ret := Except.ok info, called := false } := by
  unfold load_model
  simp only [h, Option.isSome_some, if_true, hs, if_pos rfl]

theorem load_model_when_loading (reg : Registry) (model_id : String) (info : ModelInfo)
    (outcome : LoadOutcome) (mem clock : Nat → Int)
    (h : reg model_id = some info) (hs : info.state = ModelState.loading) :
    load_model reg model_id outcome mem clock =
      { final := reg, obs := [reg], ret := Except.ok info, called := false } := by
  unfold load_model
  simp [h, hs]

theorem load_model_ok_eq (reg : Registry) (model_id : String) (info : ModelInfo)
    (inst : Nat) (mem clock : Nat → Int)
    (h : reg model_id = some info) (h1 : info.state ≠ ModelState.loaded)
    (h2 : info.state ≠ ModelState.loading) :
    load_model reg model_id (LoadOutcome.ok inst) mem clock =
      { final := setModel
          (setModel reg model_id
            { info with state := ModelState.loading, error_message := none })
          model_id
          { info with
              state := ModelState.loaded
              error_message := none
              model_instance := some inst
              memory_before_mb := some (mem 0)
              memory_after_mb := some (mem 1)
              memory_delta_mb := some (mem 1 - mem 0)
              load_time_seconds := some (clock 1 - clock 0) },
        obs := [setModel reg model_id
                  { info with state := ModelState.loading, error_message := none },
                setModel
                  (setModel reg model_id
                    { info with state := ModelState.loading, error_message := none })
                  model_id
                  { info with
                      state := ModelState.loaded
                      error_message := none
                      model_instance := some inst
                      memory_before_mb := some (mem 0)
                      memory_after_mb := some (mem 1)
                      memory_delta_mb := some (mem 1 - mem 0)
                      load_time_seconds := some (clock 1 - clock 0) }],
        ret := Except.ok
          { info with
              state := ModelState.loaded
              error_message := none
              model_instance := some inst
              memory_before_mb := some (mem 0)
              memory_after_mb := some (mem 1)
              memory_delta_mb := some (mem 1 - mem 0)
              load_time_seconds := some (clock 1 - clock 0) },
        called := true } := by
  unfold load_model
  simp [h, if_neg h1, if_neg h2, setModel]

theorem load_model_runtime_err_eq (reg : Registry) (model_id : String) (info : ModelInfo)
    (e : PyExc) (mem clock : Nat → Int)
    (h : reg model_id = some info) (h1 : info.state ≠ ModelState.loaded)
    (h2 : info.state ≠ ModelState.loading) (hk : e.kind = ExcKind.runtimeError) :
    load_model reg model_id (LoadOutcome.raises e) mem clock =
      { final := setModel
          (setModel reg model_id
            { info with state := ModelState.loading, error_message := none })
          model_id
          { info with state := ModelState.error, error_message := some e.msg },
        obs := [setModel reg model_id
                  { info with state := ModelState.loading, error_message := none },
                setModel
                  (setModel reg model_id
                    { info with state := ModelState.loading, error_message := none })
                  model_id
                  { info with state := ModelState.error, error_message := some e.msg }],
        ret := Except.error e,
        called := true } := by
  unfold load_model
  simp [h, if_neg h1, if_neg h2, hk, setModel]

theorem load_model_other_err_eq (reg : Registry) (model_id : String) (info : ModelInfo)
    (e : PyExc) (mem clock : Nat → Int)
    (h : reg model_id = some info) (h1 : info.state ≠ ModelState.loaded)
    (h2 : info.state ≠ ModelState.loading) (hk : e.kind ≠ ExcKind.runtimeError) :
    load_model reg model_id (LoadOutcome.raises e) mem clock =
      { final := setModel reg model_id
          { info with state := ModelState.loading, error_message := none },
        obs := [setModel reg model_id
                  { info with state := ModelState.loading, error_message := none }],
        ret := Except.error e,
        called := true } := by
  unfold load_model
  simp [h, if_neg h1, if_neg h2, if_neg hk]

theorem load_model_none_eq (reg : Registry) (model_id : String) (outcome : LoadOutcome)
    (mem clock : Nat → Int) (h : reg model_id = none) :
    load_model reg model_id outcome mem clock =
      load_model (setModel reg model_id { model_id := model_id }) model_id outcome mem clock := by
  unfold load_model
  simp [h, setModel]

theorem unload_model_none_eq (reg : Registry) (model_id : String) (mem : Nat → Int)
    (h : reg model_id = none) :
    unload_model reg model_id mem =
      { final := reg, obs := [reg],
        ret := Except.error ⟨ExcKind.valueError, "Unknown model: " ++ model_id⟩,
        called := false } := by
  unfold unload_model
  simp [h]

theorem unload_model_not_loaded_eq (reg : Registry) (model_id : String) (info : ModelInfo)
    (mem : Nat → Int)
    (h : reg model_id = some info) (hs : info.state ≠ ModelState.loaded) :
    unload_model reg model_id mem =
      { final := reg, obs := [reg], ret := Except.ok info, called := false } := by
  unfold unload_model
  simp [h, hs]

theorem unload_model_loaded_eq (reg : Registry) (model_id : String) (info : ModelInfo)
    (mem : Nat → Int)
    (h : reg model_id = some info) (hs : info.state = ModelState.loaded) :
    unload_model reg model_id mem =
      { final := setModel
          (setModel
            (setModel reg model_id { info with state := ModelState.unloading })
            model_id
            { info with state := ModelState.unloading, model_instance := none })
          model_id
          { info with
              state := ModelState.unloaded
              model_instance := none
              memory_before_mb := some (mem 0)
              memory_after_mb := some (mem 1)
              memory_delta_mb := some (mem 1 - mem 0) },
        obs := [setModel reg model_id { info with state := ModelState.unloading },
                setModel
                  (setModel reg model_id { info with state := ModelState.unloading })
                  model_id
                  { info with state := ModelState.unloading, model_instance := none },
                setModel
                  (setModel
                    (setModel reg model_id { info with state := ModelState.unloading })
                    model_id
                    { info with state := ModelState.unloading, model_instance := none })
                  model_id
                  { info with
                      state := ModelState.unloaded
                      model_instance := none
                      memory_before_mb := some (mem 0)
                      memory_after_mb := some (mem 1)
                      memory_delta_mb := some (mem 1 - mem 0) }],
        ret := Except.ok
          { info with
              state := ModelState.unloaded
              model_instance := none
              memory_before_mb := some (mem 0)
              memory_after_mb := some (mem 1)
              memory_delta_mb := some (mem 1 - mem 0) },
        called := true } := by
  unfold unload_model
  simp [h, hs, setModel]

/-! ### Claim theorems -/

/-- C5: for a record in state `Loaded` (and likewise `Loading`), `load(id)`
is an idempotent no-op: the registry is returned unchanged (single
observable snapshot equal to the entry registry), the existing record is
returned unaltered — in particular `load_time_seconds` — and the external
load call is not invoked (`called = false`). -/
theorem load_idempotent_on_loaded_or_loading (reg : Registry) (model_id : String)
    (info : ModelInfo) (outcome : LoadOutcome) (mem clock : Nat → Int)
    (h : reg model_id = some info)
    (hs : info.state = ModelState.loaded ∨ info.state = ModelState.loading) :
    load_model reg model_id outcome mem clock =
      { final := reg, obs := [reg], ret := Except.ok info, called := false } := by
  rcases hs with hs | hs
  · exact load_model_when_loaded reg model_id info outcome mem clock h hs
  · exact load_model_when_loading reg model_id info outcome mem clock h hs

/-- C5 witness: loading the design model twice; the second call is the
identity on the registry and does not invoke the external call. -/
theorem load_idempotent_on_loaded_or_loading_witness :
    load_model
        (load_model initRegistry DESIGN_MODEL (LoadOutcome.ok 7)
          (fun _ => 0) (fun _ => 0)).final
        DESIGN_MODEL (LoadOutcome.ok 9) (fun _ => 1) (fun _ => 1) =
      { final := (load_model initRegistry DESIGN_MODEL (LoadOutcome.ok 7)
          (fun _ => 0) (fun _ => 0)).final,
        obs := [(load_model initRegistry DESIGN_MODEL (LoadOutcome.ok 7)
          (fun _ => 0) (fun _ => 0)).final],
        ret := Except.ok
          { model_id := DESIGN_MODEL, state := ModelState.loaded,
            memory_before_mb := some 0, memory_after_mb := some 0,
            memory_delta_mb := some 0, load_time_seconds := some 0,
            error_message := none, model_instance := some 7 },
        called := false } :=
  load_idempotent_on_loaded_or_loading
    (load_model initRegistry DESIGN_MODEL (LoadOutcome.ok 7)
      (fun _ => 0) (fun _ => 0)).final
    DESIGN_MODEL
    { model_id := DESIGN_MODEL, state := ModelState.loaded,
      memory_before_mb := some 0, memory_after_mb := some 0,
      memory_delta_mb := some 0, load_time_seconds := some 0,
      error_message := none, model_instance := some 7 }
    (LoadOutcome.ok 9) (fun _ => 1) (fun _ => 1)
    (by decide) (Or.inl (by decide))

/-- C7: `unload(id)` on a registered id whose record is not `Loaded`
(`Unloaded`, `Loading`, `Unloading` or `Error`) is a no-op: the registry is
unchanged (single observable snapshot equal to the entry registry, so every
field of every record is left as it was) and the current record is returned
unchanged. -/
theorem unload_noop_when_not_loaded (reg : Registry) (model_id : String)
    (info : ModelInfo) (mem : Nat → Int)
    (h : reg model_id = some info) (hs : info.state ≠ ModelState.loaded) :
    unload_model reg model_id mem =
      { final := reg, obs := [reg], ret := Except.ok info, called := false } :=
  unload_model_not_loaded_eq reg model_id info mem h hs

/-- C7 witness: unloading the never-loaded design model leaves the initial
registry untouched. -/
theorem unload_noop_when_not_loaded_witness :
    unload_model initRegistry DESIGN_MODEL (fun _ => 0) =
      { final := initRegistry, obs := [initRegistry],
        ret := Except.ok { model_id := DESIGN_MODEL }, called := false } :=
  unload_noop_when_not_loaded initRegistry DESIGN_MODEL
    { model_id := DESIGN_MODEL } (fun _ => 0) (by decide) (by decide)

/-- C8: a successful load ends with the record `Loaded`, carrying the memory
sample taken before the external call (`mem 0`), the one taken after it
(`mem 1`), their difference as the delta, and the elapsed duration
(`clock 1 - clock 0`) as `load_time_seconds`; this record is also what the
call returns, and the external call was invoked. -/
theorem load_success_fields (reg : Registry) (model_id : String) (info : ModelInfo)
    (inst : Nat) (mem clock : Nat → Int)
    (h : reg model_id = some info) (h1 : info.state ≠ ModelState.loaded)
    (h2 : info.state ≠ ModelState.loading) :
    (load_model reg model_id (LoadOutcome.ok inst) mem clock).final model_id =
      some { info with
          state := ModelState.loaded
          error_message := none
          model_instance := some inst
          memory_before_mb := some (mem 0)
          memory_after_mb := some (mem 1)
          memory_delta_mb := some (mem 1 - mem 0)
          load_time_seconds := some (clock 1 - clock 0) } ∧
    (load_model reg model_id (LoadOutcome.ok inst) mem clock).ret =
      Except.ok { info with
          state := ModelState.loaded
          error_message := none
          model_instance := some inst
          memory_before_mb := some (mem 0)
          memory_after_mb := some (mem 1)
          memory_delta_mb := some (mem 1 - mem 0)
          load_time_seconds := some (clock 1 - clock 0) } ∧
    (load_model reg model_id (LoadOutcome.ok inst) mem clock).called = true := by
  rw [load_model_ok_eq reg model_id info inst mem clock h h1 h2]
  refine ⟨?_, rfl, rfl⟩
  simp [setModel]

/-- C8 witness: a concrete successful load with distinct sample values; the
delta and elapsed time come out as the differences of the samples. -/
theorem load_success_fields_witness :
    (load_model initRegistry DESIGN_MODEL (LoadOutcome.ok 7)
        (fun n => match n with | 0 => 200 | _ => 350)
        (fun n => match n with | 0 => 5 | _ => 14)).final DESIGN_MODEL =
      some { model_id := DESIGN_MODEL, state := ModelState.loaded,
             memory_before_mb := some 200, memory_after_mb := some 350,
             memory_delta_mb := some (350 - 200), load_time_seconds := some (14 - 5),
             error_message := none, model_instance := some 7 } ∧
    (load_model initRegistry DESIGN_MODEL (LoadOutcome.ok 7)
        (fun n => match n with | 0 => 200 | _ => 350)
        (fun n => match n with | 0 => 5 | _ => 14)).ret =
      Except.ok
        { model_id := DESIGN_MODEL, state := ModelState.loaded,
          memory_before_mb := some 200, memory_after_mb := some 350,
          memory_delta_mb := some (350 - 200), load_time_seconds := some (14 - 5),
          error_message := none, model_instance := some 7 } ∧
    (load_model initRegistry DESIGN_MODEL (LoadOutcome.ok 7)
        (fun n => match n with | 0 => 200 | _ => 350)
        (fun n => match n with | 0 => 5 | _ => 14)).called = true :=
  load_success_fields initRegistry DESIGN_MODEL { model_id := DESIGN_MODEL } 7
    (fun n => match n with | 0 => 200 | _ => 350)
    (fun n => match n with | 0 => 5 | _ => 14)
    (by decide) (by decide) (by decide)

/-- C10: whenever `load(id)` moves a record into `Loading` (entry state is
neither `Loaded` nor `Loading`), the first observable snapshot already has
`error_message` cleared to `none`, and a succeeding load finishes with
`error_message` still `none` — no stale failure message survives. -/
theorem load_clears_error_message (reg : Registry) (model_id : String)
    (info : ModelInfo) (outcome : LoadOutcome) (inst : Nat) (mem clock : Nat → Int)
    (h : reg model_id = some info) (h1 : info.state ≠ ModelState.loaded)
    (h2 : info.state ≠ ModelState.loading) :
    ((load_model reg model_id outcome mem clock).obs.getD 0 reg) model_id =
      some { info with state := ModelState.loading, error_message := none } ∧
    ((load_model reg model_id (LoadOutcome.ok inst) mem clock).final model_id).map
        ModelInfo.error_message = some none := by
  constructor
  · cases outcome with
    | ok i =>
        rw [load_model_ok_eq reg model_id info i mem clock h h1 h2]
        simp [setModel]
    | raises e =>
        by_cases hk : e.kind = ExcKind.runtimeError
        · rw [load_model_runtime_err_eq reg model_id info e mem clock h h1 h2 hk]
          simp [setModel]
        · rw [load_model_other_err_eq reg model_id info e mem clock h h1 h2 hk]
          simp [setModel]
  · rw [load_model_ok_eq reg model_id info inst mem clock h h1 h2]
    simp [setModel]

/-- C10 witness: after a failed load left `error_message = some "boom"`, a
fresh load shows the message cleared at its first observable snapshot, and a
succeeding load ends with no message. -/
theorem load_clears_error_message_witness :
    ((load_model
        (load_model initRegistry DESIGN_MODEL
          (LoadOutcome.raises ⟨ExcKind.runtimeError, "boom"⟩)
          (fun _ => 0) (fun _ => 0)).final
        DESIGN_MODEL (LoadOutcome.ok 7) (fun _ => 0) (fun _ => 0)).obs.getD 0
        (load_model initRegistry DESIGN_MODEL
          (LoadOutcome.raises ⟨ExcKind.runtimeError, "boom"⟩)
          (fun _ => 0) (fun _ => 0)).final) DESIGN_MODEL =
      some { model_id := DESIGN_MODEL, state := ModelState.loading,
             error_message := none } ∧
    ((load_model
        (load_model initRegistry DESIGN_MODEL
          (LoadOutcome.raises ⟨ExcKind.runtimeError, "boom"⟩)
          (fun _ => 0) (fun _ => 0)).final
        DESIGN_MODEL (LoadOutcome.ok 7) (fun _ => 0) (fun _ => 0)).final
        DESIGN_MODEL).map ModelInfo.error_message = some none :=
  load_clears_error_message
    (load_model initRegistry DESIGN_MODEL
      (LoadOutcome.raises ⟨ExcKind.runtimeError, "boom"⟩)
      (fun _ => 0) (fun _ => 0)).final
    DESIGN_MODEL
    { model_id := DESIGN_MODEL, state := ModelState.error,
      error_message := some "boom" }
    (LoadOutcome.ok 7) 7 (fun _ => 0) (fun _ => 0)
    (by decide) (by decide) (by decide)

/-- C3 counterexample: the handler catches only `RuntimeError` (line 173).
A failing external load call of any other exception class (here a
`ValueError`) leaves the record in state `Loading` — not `Error` — with no
message recorded, so the claim as stated is false for this failing call. -/
theorem load_failure_counterexample :
    ((load_model initRegistry DESIGN_MODEL
        (LoadOutcome.raises ⟨ExcKind.valueError, "boom"⟩)
        (fun _ => 0) (fun _ => 0)).final DESIGN_MODEL).map ModelInfo.state =
      some ModelState.loading ∧
    ((load_model initRegistry DESIGN_MODEL
        (LoadOutcome.raises ⟨ExcKind.valueError, "boom"⟩)
        (fun _ => 0) (fun _ => 0)).final DESIGN_MODEL).map ModelInfo.error_message =
      some none ∧
    some ModelState.loading ≠ some ModelState.error := by
  refine ⟨by decide, by decide, by decide⟩

/-- C3 amended: for every failing external load call that raises a
`RuntimeError` with a non-empty message, `load(id)` leaves the record with
`instance` absent and `state = Error` carrying that (non-empty) message,
changes no record field other than `state` and `error_message`, leaves every
other id's record untouched, re-raises the failure to the caller, and a
subsequent `load(id)` is permitted and can succeed (`Error` is
re-enterable).  (`h3` is the registry invariant at operation boundaries: a
record that is not `loaded` carries no instance.) -/
theorem load_runtime_failure_semantics (reg : Registry) (model_id : String)
    (info : ModelInfo) (e : PyExc) (mem clock : Nat → Int) (inst : Nat) (j : String)
    (h : reg model_id = some info) (h1 : info.state ≠ ModelState.loaded)
    (h2 : info.state ≠ ModelState.loading) (h3 : info.model_instance = none)
    (hk : e.kind = ExcKind.runtimeError) (hm : e.msg ≠ "") (hj : j ≠ model_id) :
    (load_model reg model_id (LoadOutcome.raises e) mem clock).final model_id =
      some { info with state := ModelState.error, error_message := some e.msg } ∧
    ({ info with
        state := ModelState.error
        error_message := some e.msg } : ModelInfo).model_instance = none ∧
    ({ info with
        state := ModelState.error
        error_message := some e.msg } : ModelInfo).error_message ≠ none ∧
    ({ info with
        state := ModelState.error
        error_message := some e.msg } : ModelInfo).error_message ≠ some "" ∧
    (load_model reg model_id (LoadOutcome.raises e) mem clock).ret = Except.error e ∧
    (load_model reg model_id (LoadOutcome.raises e) mem clock).final j = reg j ∧
    ((load_model (load_model reg model_id (LoadOutcome.raises e) mem clock).final
        model_id (LoadOutcome.ok inst) mem clock).final model_id).map ModelInfo.state =
      some ModelState.loaded := by
  rw [load_model_runtime_err_eq reg model_id info e mem clock h h1 h2 hk]
  refine ⟨by simp [setModel], by simpa using h3, by simp, by simpa using hm, rfl,
    by simp [setModel, hj], ?_⟩
  rw [load_model_ok_eq _ model_id
    { info with state := ModelState.error, error_message := some e.msg } inst mem clock
    (by simp [setModel]) (by simp) (by simp)]
  simp [setModel]

/-- C3 witness: a concrete RuntimeError failure on the design model. -/
theorem load_runtime_failure_semantics_witness :
    (load_model initRegistry DESIGN_MODEL
        (LoadOutcome.raises ⟨ExcKind.runtimeError, "boom"⟩)
        (fun _ => 0) (fun _ => 0)).final DESIGN_MODEL =
      some { model_id := DESIGN_MODEL, state := ModelState.error,
             error_message := some "boom" } ∧
    ({ model_id := DESIGN_MODEL, state := ModelState.error,
        error_message := some "boom" } : ModelInfo).model_instance = none ∧
    ({ model_id := DESIGN_MODEL, state := ModelState.error,
        error_message := some "boom" } : ModelInfo).error_message ≠ none ∧
    ({ model_id := DESIGN_MODEL, state := ModelState.error,
        error_message := some "boom" } : ModelInfo).error_message ≠ some "" ∧
    (load_model initRegistry DESIGN_MODEL
        (LoadOutcome.raises ⟨ExcKind.runtimeError, "boom"⟩)
        (fun _ => 0) (fun _ => 0)).ret =
      Except.error ⟨ExcKind.runtimeError, "boom"⟩ ∧
    (load_model initRegistry DESIGN_MODEL
        (LoadOutcome.raises ⟨ExcKind.runtimeError, "boom"⟩)
        (fun _ => 0) (fun _ => 0)).final "other" = initRegistry "other" ∧
    ((load_model
        (load_model initRegistry DESIGN_MODEL
          (LoadOutcome.raises ⟨ExcKind.runtimeError, "boom"⟩)
          (fun _ => 0) (fun _ => 0)).final
        DESIGN_MODEL (LoadOutcome.ok 7) (fun _ => 0) (fun _ => 0)).final
        DESIGN_MODEL).map ModelInfo.state = some ModelState.loaded :=
  load_runtime_failure_semantics initRegistry DESIGN_MODEL
    { model_id := DESIGN_MODEL } ⟨ExcKind.runtimeError, "boom"⟩
    (fun _ => 0) (fun _ => 0) 7 "other"
    (by decide) (by decide) (by decide) (by decide) (by decide) (by decide) (by decide)

/-- C4 counterexample: `unload` on an identifier outside the catalog is
rejected with `ValueError("Unknown model: ...")` (lines 187-188) — it is not
accepted, and no record is auto-created for it — refuting the claim that
both `load` and `unload` accept unknown identifiers. -/
theorem unload_unknown_rejected :
    initRegistry "C" = none ∧
    (unload_model initRegistry "C" (fun _ => 0)).ret =
      Except.error ⟨ExcKind.valueError, "Unknown model: C"⟩ ∧
    (unload_model initRegistry "C" (fun _ => 0)).final "C" = none ∧
    (unload_model initRegistry "C" (fun _ => 0)).called = false := by
  refine ⟨by decide, rfl, by decide, rfl⟩

/-- C4 amended: `load(id)` on an identifier with no record auto-creates one
(created with the dataclass default state `Unloaded`) and puts it through
the same transitions as catalog identifiers (`Loading` at the first
observable snapshot, `Loaded` on success); `unload(id)` on an identifier
with no record is rejected with `ValueError("Unknown model: ...")`, leaving
the registry unchanged. -/
theorem unknown_id_load_creates_unload_rejects (reg : Registry) (model_id : String)
    (inst : Nat) (mem clock : Nat → Int) (h : reg model_id = none) :
    unload_model reg model_id mem =
      { final := reg, obs := [reg],
        ret := Except.error ⟨ExcKind.valueError, "Unknown model: " ++ model_id⟩,
        called := false } ∧
    ((load_model reg model_id (LoadOutcome.ok inst) mem clock).obs.getD 0 reg) model_id =
      some { model_id := model_id, state := ModelState.loading } ∧
    (load_model reg model_id (LoadOutcome.ok inst) mem clock).final model_id =
      some { model_id := model_id, state := ModelState.loaded,
             memory_before_mb := some (mem 0), memory_after_mb := some (mem 1),
             memory_delta_mb := some (mem 1 - mem 0),
             load_time_seconds := some (clock 1 - clock 0),
             error_message := none, model_instance := some inst } := by
  refine ⟨unload_model_none_eq reg model_id mem h, ?_, ?_⟩ <;>
  · rw [load_model_none_eq reg model_id _ mem clock h,
      load_model_ok_eq (setModel reg model_id { model_id := model_id }) model_id
        { model_id := model_id } inst mem clock (by simp [setModel]) (by simp) (by simp)]
    simp [setModel]

/-- C4 witness: the unknown identifier "C" from the spec's scenario. -/
theorem unknown_id_load_creates_unload_rejects_witness :
    unload_model initRegistry "C" (fun _ => 0) =
      { final := initRegistry, obs := [initRegistry],
        ret := Except.error ⟨ExcKind.valueError, "Unknown model: " ++ "C"⟩,
        called := false } ∧
    ((load_model initRegistry "C" (LoadOutcome.ok 7)
        (fun _ => 0) (fun _ => 0)).obs.getD 0 initRegistry) "C" =
      some { model_id := "C", state := ModelState.loading } ∧
    (load_model initRegistry "C" (LoadOutcome.ok 7)
        (fun _ => 0) (fun _ => 0)).final "C" =
      some { model_id := "C", state := ModelState.loaded,
             memory_before_mb := some 0, memory_after_mb := some 0,
             memory_delta_mb := some 0, load_time_seconds := some 0,
             error_message := none, model_instance := some 7 } :=
  unknown_id_load_creates_unload_rejects initRegistry "C" 7
    (fun _ => 0) (fun _ => 0) (by decide)

/-- C9: each generation endpoint first checks the target record: if it is
absent or its state is not `Loaded`, the request fails with HTTP 400 before
any generation work (the external call is not reached, `invoked = false`);
when the record is `Loaded`, the request proceeds to generation
(`invoked = true`).  `generate_design` targets the fixed `DESIGN_MODEL`. -/
theorem generate_requires_loaded (reg : Registry) (cid ctlid lid p1 p2 p3 p4 : String)
    (res1 res2 res3 res4 : List Nat)
    (h1 : (get_model reg cid).map ModelInfo.state ≠ some ModelState.loaded)
    (h2 : (get_model reg ctlid).map ModelInfo.state ≠ some ModelState.loaded)
    (h3 : (get_model reg DESIGN_MODEL).map ModelInfo.state ≠ some ModelState.loaded)
    (hl : (get_model reg lid).map ModelInfo.state = some ModelState.loaded) :
    generate_clone reg cid p1 res1 =
      (Except.error (GenFailure.http 400 ("Model " ++ cid ++ " not loaded")), false) ∧
    generate_control reg ctlid p2 res2 =
      (Except.error (GenFailure.http 400 ("Model " ++ ctlid ++ " not loaded")), false) ∧
    generate_design reg p3 res3 =
      (Except.error (GenFailure.http 400 "VoiceDesign model not loaded"), false) ∧
    (generate_clone reg lid p4 res4).2 = true := by
  refine ⟨?_, ?_, ?_, ?_⟩
  · unfold generate_clone
    cases hc : get_model reg cid with
    | none => rfl
    | some info =>
        rw [hc] at h1
        simp at h1
        simp [h1]
  · unfold generate_control
    cases hc : get_model reg ctlid with
    | none => rfl
    | some info =>
        rw [hc] at h2
        simp at h2
        simp [h2]
  · unfold generate_design
    cases hc : get_model reg DESIGN_MODEL with
    | none => rfl
    | some info =>
        rw [hc] at h3
        simp at h3
        simp [h3]
  · unfold generate_clone
    cases hc : get_model reg lid with
    | none => rw [hc] at hl; exact absurd hl (by simp)
    | some info =>
        rw [hc] at hl
        simp at hl
        by_cases hr : res4 = [] <;> simp [hl, hr]

/-- C9 witness: with only the first clone model loaded, all three endpoints
reject unknown or unloaded targets with HTTP 400 and no generation work,
while a request for the loaded model reaches generation. -/
theorem generate_requires_loaded_witness :
    generate_clone
        (load_model initRegistry "mlx-community/Qwen3-TTS-12Hz-0.6B-Base-bf16"
          (LoadOutcome.ok 7) (fun _ => 0) (fun _ => 0)).final
        "x" "p1" [] =
      (Except.error (GenFailure.http 400 ("Model " ++ "x" ++ " not loaded")), false) ∧
    generate_control
        (load_model initRegistry "mlx-community/Qwen3-TTS-12Hz-0.6B-Base-bf16"
          (LoadOutcome.ok 7) (fun _ => 0) (fun _ => 0)).final
        "y" "p2" [] =
      (Except.error (GenFailure.http 400 ("Model " ++ "y" ++ " not loaded")), false) ∧
    generate_design
        (load_model initRegistry "mlx-community/Qwen3-TTS-12Hz-0.6B-Base-bf16"
          (LoadOutcome.ok 7) (fun _ => 0) (fun _ => 0)).final
        "p3" [] =
      (Except.error (GenFailure.http 400 "VoiceDesign model not loaded"), false) ∧
    (generate_clone
        (load_model initRegistry "mlx-community/Qwen3-TTS-12Hz-0.6B-Base-bf16"
          (LoadOutcome.ok 7) (fun _ => 0) (fun _ => 0)).final
        "mlx-community/Qwen3-TTS-12Hz-0.6B-Base-bf16" "p4" [42]).2 = true :=
  generate_requires_loaded
    (load_model initRegistry "mlx-community/Qwen3-TTS-12Hz-0.6B-Base-bf16"
      (LoadOutcome.ok 7) (fun _ => 0) (fun _ => 0)).final
    "x" "y" "mlx-community/Qwen3-TTS-12Hz-0.6B-Base-bf16" "p1" "p2" "p3" "p4"
    [] [] [] [42]
    (by decide) (by decide) (by decide) (by decide)

/-! ### Helper lemmas for the trace invariants -/

theorem setModel_self (reg : Registry) (model_id : String) (info : ModelInfo) :
    setModel reg model_id info model_id = some info := by
  simp [setModel]

theorem setModel_other (reg : Registry) (model_id j : String) (info : ModelInfo)
    (hj : j ≠ model_id) : setModel reg model_id info j = reg j := by
  simp [setModel, hj]

theorem setModel_squash (reg : Registry) (model_id : String) (a b : ModelInfo) :
    setModel (setModel reg model_id a) model_id b = setModel reg model_id b := by
  funext j
  by_cases hj : j = model_id <;> simp [setModel, hj]

theorem stateAt_set_self (reg : Registry) (model_id : String) (info : ModelInfo) :
    stateAt (setModel reg model_id info) model_id = info.state := by
  simp [stateAt, setModel]

theorem stateAt_set_other (reg : Registry) (model_id j : String) (info : ModelInfo)
    (hj : j ≠ model_id) :
    stateAt (setModel reg model_id info) j = stateAt reg j := by
  simp [stateAt, setModel, hj]

theorem obsStep_set (reg : Registry) (model_id : String) (info : ModelInfo)
    (h : allowedStep (stateAt reg model_id) info.state) :
    obsStep reg (setModel reg model_id info) := by
  intro j
  by_cases hj : j = model_id
  · subst hj
    exact ⟨fun _ => by simp [setModel], by rwa [stateAt_set_self]⟩
  · rw [setModel_other reg model_id j info hj, stateAt_set_other reg model_id j info hj]
    exact ⟨fun hd => hd, Or.inl rfl⟩

theorem weakInv_set (reg : Registry) (model_id : String) (info : ModelInfo)
    (hreg : WeakInv reg)
    (hA : info.state = ModelState.loaded → info.model_instance.isSome = true)
    (hB : info.model_instance.isSome = true →
      info.state = ModelState.loaded ∨ info.state = ModelState.unloading) :
    WeakInv (setModel reg model_id info) := by
  intro j rec hj
  by_cases hjm : j = model_id
  · subst hjm
    rw [setModel_self] at hj
    cases hj
    exact ⟨hA, hB⟩
  · rw [setModel_other reg model_id j info hjm] at hj
    exact hreg j rec hj

theorem quiescent_weakInv (reg : Registry) (h : Quiescent reg) : WeakInv reg := by
  intro j rec hj
  obtain ⟨hiff, _⟩ := h j rec hj
  exact ⟨hiff.mp, fun hs => Or.inl (hiff.mpr hs)⟩

theorem quiescent_set (reg : Registry) (model_id : String) (info : ModelInfo)
    (hreg : Quiescent reg)
    (hI : (info.state = ModelState.loaded ↔ info.model_instance.isSome = true) ∧
      info.state ≠ ModelState.unloading) :
    Quiescent (setModel reg model_id info) := by
  intro j rec hj
  by_cases hjm : j = model_id
  · subst hjm
    rw [setModel_self] at hj
    cases hj
    exact hI
  · rw [setModel_other reg model_id j info hjm] at hj
    exact hreg j rec hj

theorem quiescent_init : Quiescent initRegistry := by
  intro j rec hj
  unfold initRegistry at hj
  split at hj
  · cases hj
    exact ⟨by simp, by simp⟩
  · exact absurd hj (by simp)

theorem chainOK_append (R : Registry → Registry → Prop) (a : Registry)
    (l1 l2 : List Registry) (h1 : chainOK R a l1)
    (h2 : chainOK R (l1.getLast?.getD a) l2) :
    chainOK R a (l1 ++ l2) := by
  induction l1 generalizing a with
  | nil => simpa using h2
  | cons b t ih =>
      obtain ⟨hab, ht⟩ := h1
      refine ⟨hab, ih b ht ?_⟩
      cases t with
      | nil => simpa using h2
      | cons c u => simpa [List.getLast?_cons_cons] using h2

theorem allowedStep_to_loading (s : ModelState) (h1 : s ≠ ModelState.loaded)
    (h2 : s ≠ ModelState.loading) (h3 : s ≠ ModelState.unloading) :
    allowedStep s ModelState.loading := by
  cases s <;> simp_all [allowedStep]

theorem obsStep_refl (reg : Registry) : obsStep reg reg :=
  fun _ => ⟨fun h => h, Or.inl rfl⟩

theorem noop_props (reg : Registry) (hq : Quiescent reg) :
    Quiescent reg ∧ (∀ r ∈ [reg], WeakInv r) ∧ chainOK obsStep reg [reg] ∧
    ([reg].getLast?.getD reg = reg) := by
  refine ⟨hq, ?_, ⟨obsStep_refl reg, trivial⟩, by simp⟩
  intro r hr
  simp only [List.mem_singleton] at hr
  subst hr
  exact quiescent_weakInv _ hq

theorem one_step_props (reg : Registry) (model_id : String) (r1 : ModelInfo)
    (hq : Quiescent reg)
    (hs1 : allowedStep (stateAt reg model_id) r1.state)
    (h1Q : (r1.state = ModelState.loaded ↔ r1.model_instance.isSome = true) ∧
      r1.state ≠ ModelState.unloading) :
    Quiescent (setModel reg model_id r1) ∧
    (∀ r ∈ [setModel reg model_id r1], WeakInv r) ∧
    chainOK obsStep reg [setModel reg model_id r1] ∧
    ([setModel reg model_id r1].getLast?.getD reg = setModel reg model_id r1) := by
  refine ⟨quiescent_set reg model_id r1 hq h1Q, ?_,
    ⟨obsStep_set reg model_id r1 hs1, trivial⟩, by simp⟩
  intro r hr
  simp only [List.mem_singleton] at hr
  subst hr
  exact quiescent_weakInv _ (quiescent_set reg model_id r1 hq h1Q)

theorem two_step_props (reg : Registry) (model_id : String) (r1 r2 : ModelInfo)
    (hq : Quiescent reg)
    (hs1 : allowedStep (stateAt reg model_id) r1.state)
    (hs2 : allowedStep r1.state r2.state)
    (h1A : r1.state = ModelState.loaded → r1.model_instance.isSome = true)
    (h1B : r1.model_instance.isSome = true →
      r1.state = ModelState.loaded ∨ r1.state = ModelState.unloading)
    (h2Q : (r2.state = ModelState.loaded ↔ r2.model_instance.isSome = true) ∧
      r2.state ≠ ModelState.unloading) :
    Quiescent (setModel reg model_id r2) ∧
    (∀ r ∈ [setModel reg model_id r1, setModel reg model_id r2], WeakInv r) ∧
    chainOK obsStep reg [setModel reg model_id r1, setModel reg model_id r2] ∧
    ([setModel reg model_id r1, setModel reg model_id r2].getLast?.getD reg =
      setModel reg model_id r2) := by
  have hstep2 : obsStep (setModel reg model_id r1) (setModel reg model_id r2) := by
    have h := obsStep_set (setModel reg model_id r1) model_id r2
      (by rwa [stateAt_set_self])
    rwa [setModel_squash] at h
  refine ⟨quiescent_set reg model_id r2 hq h2Q, ?_,
    ⟨obsStep_set reg model_id r1 hs1, hstep2, trivial⟩, by simp⟩
  intro r hr
  simp only [List.mem_cons, List.mem_singleton] at hr
  rcases hr with hr | hr | hr
  · subst hr
    exact weakInv_set reg model_id r1 (quiescent_weakInv reg hq) h1A h1B
  · subst hr
    exact quiescent_weakInv _ (quiescent_set reg model_id r2 hq h2Q)
  · cases hr

theorem three_step_props (reg : Registry) (model_id : String) (u1 u2 u3 : ModelInfo)
    (hq : Quiescent reg)
    (hs1 : allowedStep (stateAt reg model_id) u1.state)
    (hs2 : allowedStep u1.state u2.state)
    (hs3 : allowedStep u2.state u3.state)
    (h1A : u1.state = ModelState.loaded → u1.model_instance.isSome = true)
    (h1B : u1.model_instance.isSome = true →
      u1.state = ModelState.loaded ∨ u1.state = ModelState.unloading)
    (h2A : u2.state = ModelState.loaded → u2.model_instance.isSome = true)
    (h2B : u2.model_instance.isSome = true →
      u2.state = ModelState.loaded ∨ u2.state = ModelState.unloading)
    (h3Q : (u3.state = ModelState.loaded ↔ u3.model_instance.isSome = true) ∧
      u3.state ≠ ModelState.unloading) :
    Quiescent (setModel reg model_id u3) ∧
    (∀ r ∈ [setModel reg model_id u1, setModel reg model_id u2,
      setModel reg model_id u3], WeakInv r) ∧
    chainOK obsStep reg [setModel reg model_id u1, setModel reg model_id u2,
      setModel reg model_id u3] ∧
    ([setModel reg model_id u1, setModel reg model_id u2,
      setModel reg model_id u3].getLast?.getD reg = setModel reg model_id u3) := by
  have hstep2 : obsStep (setModel reg model_id u1) (setModel reg model_id u2) := by
    have h := obsStep_set (setModel reg model_id u1) model_id u2
      (by rwa [stateAt_set_self])
    rwa [setModel_squash] at h
  have hstep3 : obsStep (setModel reg model_id u2) (setModel reg model_id u3) := by
    have h := obsStep_set (setModel reg model_id u2) model_id u3
      (by rwa [stateAt_set_self])
    rwa [setModel_squash] at h
  refine ⟨quiescent_set reg model_id u3 hq h3Q, ?_,
    ⟨obsStep_set reg model_id u1 hs1, hstep2, hstep3, trivial⟩, by simp⟩
  intro r hr
  simp only [List.mem_cons, List.mem_singleton] at hr
  rcases hr with hr | hr | hr | hr
  · subst hr
    exact weakInv_set reg model_id u1 (quiescent_weakInv reg hq) h1A h1B
  · subst hr
    exact weakInv_set reg model_id u2 (quiescent_weakInv reg hq) h2A h2B
  · subst hr
    exact quiescent_weakInv _ (quiescent_set reg model_id u3 hq h3Q)
  · cases hr

theorem runOp_props (reg : Registry) (op : RegOp) (hq : Quiescent reg) :
    Quiescent (runOp reg op).final ∧
    (∀ r ∈ (runOp reg op).obs, WeakInv r) ∧
    chainOK obsStep reg (runOp reg op).obs ∧
    ((runOp reg op).obs.getLast?.getD reg = (runOp reg op).final) := by
  cases op with
  | load model_id outcome mem clock =>
      simp only [runOp]
      cases hr : reg model_id with
      | none =>
          rw [load_model_none_eq reg model_id outcome mem clock hr]
          have h0 : setModel reg model_id { model_id := model_id } model_id =
              some { model_id := model_id } := setModel_self reg model_id _
          cases outcome with
          | ok inst =>
              rw [load_model_ok_eq _ model_id { model_id := model_id } inst mem clock
                h0 (by simp) (by simp)]
              simp only [setModel_squash]
              exact two_step_props reg model_id _ _ hq
                (by simp [stateAt, hr, allowedStep])
                (by simp [allowedStep])
                (by simp) (by simp) (by simp)
          | raises e =>
              by_cases hk : e.kind = ExcKind.runtimeError
              · rw [load_model_runtime_err_eq _ model_id { model_id := model_id } e mem clock
                  h0 (by simp) (by simp) hk]
                simp only [setModel_squash]
                exact two_step_props reg model_id _ _ hq
                  (by simp [stateAt, hr, allowedStep])
                  (by simp [allowedStep])
                  (by simp) (by simp) (by simp)
              · rw [load_model_other_err_eq _ model_id { model_id := model_id } e mem clock
                  h0 (by simp) (by simp) hk]
                simp only [setModel_squash]
                exact one_step_props reg model_id _ hq
                  (by simp [stateAt, hr, allowedStep])
                  (by simp)
      | some info =>
          by_cases hl : info.state = ModelState.loaded
          · rw [load_model_when_loaded reg model_id info outcome mem clock hr hl]
            exact noop_props reg hq
          by_cases hlg : info.state = ModelState.loading
          · rw [load_model_when_loading reg model_id info outcome mem clock hr hlg]
            exact noop_props reg hq
          have hnu : info.state ≠ ModelState.unloading := (hq model_id info hr).2
          have hinst : info.model_instance = none := by
            cases hmi : info.model_instance with
            | none => rfl
            | some v => exact absurd ((hq model_id info hr).1.mpr (by simp [hmi])) hl
          have hs1 : allowedStep (stateAt reg model_id)
              (ModelInfo.state { info with state := ModelState.loading, error_message := none }) := by
            simp only [stateAt, hr]
            exact allowedStep_to_loading info.state hl hlg hnu
          cases outcome with
          | ok inst =>
              rw [load_model_ok_eq reg model_id info inst mem clock hr hl hlg]
              simp only [setModel_squash]
              exact two_step_props reg model_id _ _ hq hs1
                (by simp [allowedStep])
                (by simp) (by simp [hinst]) (by simp)
          | raises e =>
              by_cases hk : e.kind = ExcKind.runtimeError
              · rw [load_model_runtime_err_eq reg model_id info e mem clock hr hl hlg hk]
                simp only [setModel_squash]
                exact two_step_props reg model_id _ _ hq hs1
                  (by simp [allowedStep])
                  (by simp) (by simp [hinst]) (by simp [hinst])
              · rw [load_model_other_err_eq reg model_id info e mem clock hr hl hlg hk]
                exact one_step_props reg model_id _ hq hs1 (by simp [hinst])
  | unload model_id mem =>
      simp only [runOp]
      cases hr : reg model_id with
      | none =>
          rw [unload_model_none_eq reg model_id mem hr]
          exact noop_props reg hq
      | some info =>
          by_cases hl : info.state = ModelState.loaded
          · rw [unload_model_loaded_eq reg model_id info mem hr hl]
            simp only [setModel_squash]
            exact three_step_props reg model_id _ _ _ hq
              (by simp [stateAt, hr, hl, allowedStep])
              (by simp [allowedStep])
              (by simp [allowedStep])
              (by simp) (by simp)
              (by simp) (by simp)
              (by simp)
          · rw [unload_model_not_loaded_eq reg model_id info mem hr hl]
            exact noop_props reg hq

theorem runTrace_props (ops : List RegOp) : ∀ reg : Registry, Quiescent reg →
    (∀ r ∈ runTrace reg ops, WeakInv r) ∧
    chainOK obsStep reg (runTrace reg ops) ∧
    Quiescent (finalRegOf reg ops) := by
  induction ops with
  | nil =>
      intro reg hq
      exact ⟨by simp [runTrace], trivial, hq⟩
  | cons op ops ih =>
      intro reg hq
      obtain ⟨hqf, hobs, hchain, hlast⟩ := runOp_props reg op hq
      obtain ⟨ih1, ih2, ih3⟩ := ih (runOp reg op).final hqf
      refine ⟨?_, ?_, ?_⟩
      · intro r hr
        rw [runTrace] at hr
        rcases List.mem_append.mp hr with h | h
        · exact hobs r h
        · exact ih1 r h
      · rw [runTrace]
        exact chainOK_append obsStep reg _ _ hchain (by rw [hlast]; exact ih2)
      · rw [finalRegOf]
        exact ih3

/-- C1 counterexample: with the design model loaded, `unload` releases the
lock after marking the record `Unloading` (line 196-197) but clears the
instance handle only in a later critical section (lines 203-205).  The first
observable snapshot of the unload therefore shows `state = Unloading` while
the instance handle is still present — a point where the lock is not held
and a concurrent `get(id)` could read the record — so the claimed iff
`instance present ⇔ state == Loaded` fails at an observable point. -/
theorem unload_window_counterexample :
    ((unload_model
        (load_model initRegistry DESIGN_MODEL (LoadOutcome.ok 7)
          (fun _ => 0) (fun _ => 0)).final
        DESIGN_MODEL (fun _ => 0)).obs.getD 0 initRegistry) DESIGN_MODEL =
      some { model_id := DESIGN_MODEL, state := ModelState.unloading,
             memory_before_mb := some 0, memory_after_mb := some 0,
             memory_delta_mb := some 0, load_time_seconds := some 0,
             error_message := none, model_instance := some 7 } ∧
    ¬(ModelState.unloading = ModelState.loaded ↔
        (some 7 : Option Nat).isSome = true) := by
  refine ⟨by decide, by decide⟩

/-- C1 amended: at every snapshot observable while load/unload operations
run in sequence from the initial registry (the lock-released points of
`OpResult.obs`, where a concurrent `get(id)` could read the record), every
record satisfies: `instance present ⇔ state == Loaded`, **or** the record is
in the transient unload window `state == Unloading` with the instance still
present (the handle is cleared in the second critical section of the
unload).  Equivalently: `Loaded` always carries an instance, and an instance
is carried only in states `Loaded` or `Unloading`; at operation boundaries
the original iff holds (`runTrace_props`). -/
theorem instance_iff_loaded_up_to_unloading (ops : List RegOp) (r : Registry)
    (hr : r ∈ initRegistry :: runTrace initRegistry ops)
    (model_id : String) (info : ModelInfo) (h : r model_id = some info) :
    (info.state = ModelState.loaded ↔ info.model_instance.isSome = true) ∨
    (info.state = ModelState.unloading ∧ info.model_instance.isSome = true) := by
  have hw : WeakInv r := by
    rcases List.mem_cons.mp hr with hE | hT
    · subst hE
      exact quiescent_weakInv _ quiescent_init
    · exact (runTrace_props ops initRegistry quiescent_init).1 r hT
  obtain ⟨hA, hB⟩ := hw model_id info h
  by_cases hs : info.model_instance.isSome = true
  · rcases hB hs with hl | hu
    · exact Or.inl ⟨fun _ => hs, fun _ => hl⟩
    · exact Or.inr ⟨hu, hs⟩
  · refine Or.inl ⟨fun hload => absurd (hA hload) hs, fun hsome => absurd hsome hs⟩

/-- C1 witness: the initial registry itself is an observable point; its
design-model record satisfies the (amended) invariant. -/
theorem instance_iff_loaded_up_to_unloading_witness :
    (({ model_id := DESIGN_MODEL } : ModelInfo).state = ModelState.loaded ↔
      ({ model_id := DESIGN_MODEL } : ModelInfo).model_instance.isSome = true) ∨
    (({ model_id := DESIGN_MODEL } : ModelInfo).state = ModelState.unloading ∧
      ({ model_id := DESIGN_MODEL } : ModelInfo).model_instance.isSome = true) :=
  instance_iff_loaded_up_to_unloading [] initRegistry
    (List.mem_cons_self _ _) DESIGN_MODEL { model_id := DESIGN_MODEL } (by decide)

/-- C6: starting from the initial registry (whose records are all in state
`Unloaded`, as is every auto-created record — the dataclass default),
across any sequence of load/unload operations, consecutive observable
snapshots never drop a record (`obsStep`'s first component) and only move a
record's state along the six listed transitions (`allowedStep`:
`Unloaded → Loading`, `Loading → Loaded`, `Loading → Error`,
`Loaded → Unloading`, `Unloading → Unloaded`, re-entry `Error → Loading`,
besides staying put); no other transition is reachable. -/
theorem registry_lifecycle_transitions (ops : List RegOp) (model_id : String)
    (info : ModelInfo) (h : initRegistry model_id = some info) :
    chainOK obsStep initRegistry (runTrace initRegistry ops) ∧
    info.state = ModelState.unloaded ∧
    ({ model_id := model_id } : ModelInfo).state = ModelState.unloaded := by
  refine ⟨(runTrace_props ops initRegistry quiescent_init).2.1, ?_, rfl⟩
  unfold initRegistry at h
  split at h
  · cases h
    rfl
  · exact absurd h (by simp)

/-- C6 witness: the empty operation sequence and the design-model record of
the initial registry. -/
theorem registry_lifecycle_transitions_witness :
    chainOK obsStep initRegistry (runTrace initRegistry []) ∧
    ({ model_id := DESIGN_MODEL } : ModelInfo).state = ModelState.unloaded ∧
    ({ model_id := DESIGN_MODEL } : ModelInfo).state = ModelState.unloaded :=
  registry_lifecycle_transitions [] DESIGN_MODEL { model_id := DESIGN_MODEL } (by decide)

/-! ### Heap model lemmas (aliasing of query results) -/

theorem get_set_self {α : Type} (l : List α) (i : Nat) (a b : α)
    (h : l[i]? = some b) : (l.set i a)[i]? = some a := by
  induction l generalizing i with
  | nil => simp at h
  | cons x t ih =>
      cases i with
      | zero => simp
      | succ n => simpa using ih n (by simpa using h)

theorem hload_ok_eq (h : HeapRegistry) (model_id : String) (r : Nat)
    (info : ModelInfo) (inst : Nat) (mem clock : Nat → Int)
    (hg : hget h model_id = some r) (hs : h.store.get? r = some info)
    (h1 : info.state ≠ ModelState.loaded) (h2 : info.state ≠ ModelState.loading) :
    hload h model_id (LoadOutcome.ok inst) mem clock =
      ({ h with
          store := List.set
            (List.set h.store r
              { info with state := ModelState.loading, error_message := none })
            r
            { info with
                state := ModelState.loaded
                error_message := none
                model_instance := some inst
                memory_before_mb := some (mem 0)
                memory_after_mb := some (mem 1)
                memory_delta_mb := some (mem 1 - mem 0)
                load_time_seconds := some (clock 1 - clock 0) } },
       Except.ok r) := by
  have hg' : (h.dict.find? (fun p => p.1 == model_id)).map Prod.snd = some r := hg
  have hs' : h.store[r]? = some info := by simpa using hs
  unfold hload
  simp [hget, hg', hs', if_neg h1, if_neg h2,
    get_set_self h.store r { info with state := ModelState.loading, error_message := none }
      info hs']

/-- C2 counterexample: in the heap model of Python object identity,
`get_model` on the fresh registry returns reference 4 — the design-model
record object itself, whose value then reads `state = Unloaded`.  After a
subsequent successful `load` of the same id, the value read through that
same reference is the mutated `Loaded` record: the record handed out by the
query was altered in place by the later mutation, so queries do not return
value copies. -/
theorem get_model_returns_reference_counterexample :
    hget hinit DESIGN_MODEL = some 4 ∧
    hinit.store.get? 4 = some { model_id := DESIGN_MODEL } ∧
    (hload hinit DESIGN_MODEL (LoadOutcome.ok 7)
        (fun _ => 0) (fun _ => 0)).1.store.get? 4 =
      some { model_id := DESIGN_MODEL, state := ModelState.loaded,
             memory_before_mb := some 0, memory_after_mb := some 0,
             memory_delta_mb := some 0, load_time_seconds := some 0,
             error_message := none, model_instance := some 7 } ∧
    ({ model_id := DESIGN_MODEL } : ModelInfo) ≠
      { model_id := DESIGN_MODEL, state := ModelState.loaded,
        memory_before_mb := some 0, memory_after_mb := some 0,
        memory_delta_mb := some 0, load_time_seconds := some 0,
        error_message := none, model_instance := some 7 } := by
  refine ⟨by decide, by decide, by decide, by decide⟩

/-- C2 amended: `get(id)` returns, under the lock, the live reference stored
in the registry dict (not a copy), and `getAll()` a fresh list of those same
references; `load(id)` mutates the referenced record object in place and
returns that same reference, so a record obtained from an earlier query
reflects subsequent load/unload mutations of that identifier. -/
theorem get_model_returns_live_reference (h : HeapRegistry) (model_id : String)
    (r : Nat) (info : ModelInfo) (inst : Nat) (mem clock : Nat → Int)
    (hg : hget h model_id = some r) (hs : h.store.get? r = some info)
    (h1 : info.state ≠ ModelState.loaded) (h2 : info.state ≠ ModelState.loading) :
    hgetAll h = h.dict.map Prod.snd ∧
    (hload h model_id (LoadOutcome.ok inst) mem clock).2 = Except.ok r ∧
    hget (hload h model_id (LoadOutcome.ok inst) mem clock).1 model_id = some r ∧
    (hload h model_id (LoadOutcome.ok inst) mem clock).1.store.get? r =
      some { info with
          state := ModelState.loaded
          error_message := none
          model_instance := some inst
          memory_before_mb := some (mem 0)
          memory_after_mb := some (mem 1)
          memory_delta_mb := some (mem 1 - mem 0)
          load_time_seconds := some (clock 1 - clock 0) } := by
  rw [hload_ok_eq h model_id r info inst mem clock hg hs h1 h2]
  refine ⟨rfl, rfl, by simpa [hget] using hg, ?_⟩
  have hs' : h.store[r]? = some info := by simpa using hs
  simpa using get_set_self _ r _ _
    (get_set_self h.store r { info with state := ModelState.loading, error_message := none }
      info hs')

/-- C2 witness: the design-model record of the fresh registry. -/
theorem get_model_returns_live_reference_witness :
    hgetAll hinit = hinit.dict.map Prod.snd ∧
    (hload hinit DESIGN_MODEL (LoadOutcome.ok 7) (fun _ => 0) (fun _ => 0)).2 =
      Except.ok 4 ∧
    hget (hload hinit DESIGN_MODEL (LoadOutcome.ok 7)
      (fun _ => 0) (fun _ => 0)).1 DESIGN_MODEL = some 4 ∧
    (hload hinit DESIGN_MODEL (LoadOutcome.ok 7)
        (fun _ => 0) (fun _ => 0)).1.store.get? 4 =
      some { model_id := DESIGN_MODEL, state := ModelState.loaded,
             memory_before_mb := some 0, memory_after_mb := some 0,
             memory_delta_mb := some 0, load_time_seconds := some 0,
             error_message := none, model_instance := some 7 } :=
  get_model_returns_live_reference hinit DESIGN_MODEL 4 { model_id := DESIGN_MODEL } 7
    (fun _ => 0) (fun _ => 0) (by decide) (by decide) (by decide) (by decide)
